import Mathlib

/-!
Shallow embedding of `weecfg/config.py` (weewx-weeconfig-mods): the
command-mode resolver (`ConfigEngine.run`) and the station-info precedence
engine (`ConfigEngine.get_stn_info`).

Python dictionaries holding station attributes are modelled as association
lists with first-match lookup; assignment conses a fresh binding, which has
the same lookup semantics as in-place update.  External collaborators from
the `weecfg` module (config loading, merging, saving, prompting, skin status
queries) are modelled as oracle records: arbitrary functions supplied as
parameters, since only their call contract matters here.  Process-level
effects (prints, logging, delegate calls, `sys.exit`) are modelled as an
event trace plus a final outcome.
-/

namespace Weecfg

/-- A Python value stored in the station-info dictionary: either a string or
a list of strings (the altitude option becomes a list after normalization). -/
inductive ConfigVal where
  | str (s : String)
  | list (l : List String)
deriving DecidableEq, Repr

/-- The station-info dictionary: association list with first-match lookup. -/
abbrev StationInfo := List (String × ConfigVal)

/-- Dictionary lookup: first binding of the key wins (`stn_info[k]` / `k in stn_info`). -/
def dictGet (d : StationInfo) (k : String) : Option ConfigVal :=
  match d with
  | [] => none
  | p :: rest => if p.1 == k then some p.2 else dictGet rest k

/-- Dictionary assignment `d[k] = v`: the new binding shadows any older one. -/
def dictSet (d : StationInfo) (k : String) (v : ConfigVal) : StationInfo :=
  (k, v) :: d

/-- Python `d.update(l)`: assign every binding of `l` into `d`, in order. -/
def dictUpdate (d : StationInfo) (l : List (String × ConfigVal)) : StationInfo :=
  l.foldl (fun s p => dictSet s p.1 p.2) d

/-- The default station information table (config.py lines 20-29).  Note the
altitude default is the single string "0, meter", not a list. -/
def stn_info_defaults : List (String × ConfigVal) :=
  [("location", ConfigVal.str "My Home Town"),
   ("latitude", ConfigVal.str "0.0"),
   ("longitude", ConfigVal.str "0.0"),
   ("altitude", ConfigVal.str "0, meter"),
   ("units", ConfigVal.str "metricwx"),
   ("register_this_station", ConfigVal.str "false"),
   ("station_type", ConfigVal.str "Simulator"),
   ("driver", ConfigVal.str "weewx.drivers.simulator")]

/-- The parsed command-line options object.  An `Option` field is `none` when
the attribute is absent or holds Python `None`; the source treats those two
cases identically (`hasattr(options, k) and getattr(options, k) is not None`,
truthiness tests).  `altitude` is `ConfigVal` because `run` rebinds it from a
string to a list during normalization. -/
structure Options where
  version : Bool
  list_drivers : Bool
  install : Option Bool
  upgrade : Option Bool
  reconfigure : Option Bool
  list_skins : Option Bool
  enable_skin : Option String
  disable_skin : Option String
  dist_config : Option String
  config_path : Option String
  output : Option String
  no_backup : Bool
  no_prompt : Bool
  debug : Bool
  location : Option String
  latitude : Option String
  longitude : Option String
  altitude : Option ConfigVal
  units : Option String
  register_this_station : Option String
  station_type : Option String
  driver : Option String
deriving DecidableEq, Repr

/-- Python truthiness of an optional boolean flag (`None` and `False` falsy). -/
def truthyB : Option Bool → Bool
  | none => false
  | some b => b

/-- Python truthiness of an optional string (`None` and `""` falsy). -/
def truthyS : Option String → Bool
  | none => false
  | some s => !(s == "")

/-- Python `%s` rendering of an optional string (`None` prints as "None"). -/
def pyShow : Option String → String
  | none => "None"
  | some s => s

/-- Model of `getattr(options, k)` for the station-attribute keys of the default table;
`none` covers both a missing attribute and a `None` value. -/
def Options.getStnAttr (o : Options) (k : String) : Option ConfigVal :=
  if k == "location" then o.location.map ConfigVal.str
  else if k == "latitude" then o.latitude.map ConfigVal.str
  else if k == "longitude" then o.longitude.map ConfigVal.str
  else if k == "altitude" then o.altitude
  else if k == "units" then o.units.map ConfigVal.str
  else if k == "register_this_station" then o.register_this_station.map ConfigVal.str
  else if k == "station_type" then o.station_type.map ConfigVal.str
  else if k == "driver" then o.driver.map ConfigVal.str
  else none

/-- External interactive-prompt collaborators (`weecfg.prompt_for_info`,
`prompt_for_driver`, `prompt_for_driver_settings`), modelled as an oracle. -/
structure PromptOracle where
  prompt_for_info : StationInfo → List (String × ConfigVal)
  prompt_for_driver : Option ConfigVal → String
  prompt_for_driver_settings : String → StationInfo → List (String × ConfigVal)

/-- One iteration of the override/default loop of `get_stn_info`
(config.py lines 200-206) for key `kv.1` with default value `kv.2`. -/
def mergeStep (o : Options) (si : StationInfo) (kv : String × ConfigVal) : StationInfo :=
  match o.getStnAttr kv.1 with
  | some v => dictSet si kv.1 v
  | none => if (dictGet si kv.1).isSome then si else dictSet si kv.1 kv.2

/-- Embedding of `ConfigEngine.get_stn_info` (config.py lines 190-217).  `config_stn` is
the result of the external call `weecfg.get_station_info(config_dict)`: the
station attributes extracted from the loaded config structure. -/
def get_stn_info (config_stn : StationInfo) (o : Options) (oracle : PromptOracle) :
    StationInfo :=
  let stn_info := stn_info_defaults.foldl (mergeStep o) config_stn
  if o.no_prompt then stn_info
  else
    let si1 := dictUpdate stn_info (oracle.prompt_for_info stn_info)
    let driver := oracle.prompt_for_driver (dictGet si1 "driver")
    let si2 := dictSet si1 "driver" (ConfigVal.str driver)
    dictUpdate si2 (oracle.prompt_for_driver_settings driver config_stn)

/-- Result of `weecfg.get_enable_status`: the source compares it against the
Python values `'invalid_skin_name'`, `True`, `False`, `'undefined'`, with a
catch-all `else`; `other` stands for any further value. -/
inductive SkinStatus where
  | invalid_skin_name
  | enabled
  | disabled
  | undefined
  | other
deriving DecidableEq, Repr

/-- A failure while loading a config file: `IOError` or `SyntaxError`,
carrying the exception text. -/
inductive LoadErr where
  | io (e : String)
  | syn (e : String)
deriving DecidableEq, Repr

/-- Observable process-level effects of one `run` invocation, in order.
`loadDist`/`loadConfig` mark the external file-load calls;
`enableSkinMutation`/`disableSkinMutation` would mark the delegated skin
mutation, for which the source holds only placeholder comments
(config.py lines 147 and 162) and never emits them. -/
inductive Event where
  | printVersion
  | printDrivers
  | printMsg (s : String)
  | logMsg (s : String)
  | loadDist
  | loadConfig
  | updateAndMerge
  | modifyConfig (si : StationInfo)
  | printSkins
  | queryEnableStatus (skin : String)
  | enableSkinMutation (skin : String)
  | disableSkinMutation (skin : String)
  | save (path : String) (backup : Bool)
  | deadDisableBranch
deriving DecidableEq, Repr

/-- How the invocation ended: `sys.exit` with a code (`sys.exit(msg)` exits
with code 1 and the message), or a normal return from `run`. -/
inductive Outcome where
  | exited (code : Nat) (msg : Option String)
  | finished
deriving DecidableEq, Repr

/-- The trace and final outcome of one `run` invocation. -/
structure RunResult where
  events : List Event
  outcome : Outcome
deriving DecidableEq, Repr

/-- External collaborators of `run` from the `weecfg`/`configobj` modules,
over an abstract config-structure type `C`, modelled as an oracle record. -/
structure Collab (C : Type) where
  open_dist : Option String → Except LoadErr C
  read_config : Option String → List String → Except LoadErr (String × C)
  get_station_info : C → StationInfo
  update_and_merge : C → C → C
  modify_config : C → StationInfo → C
  get_enable_status : C → String → SkinStatus
  save : C → String → Bool → Option String

/-- Helper for `splitComma`: walk the characters, cutting at every comma;
`acc` holds the current piece reversed. -/
def splitCommaAux : List Char → List Char → List (List Char)
  | [], acc => [acc.reverse]
  | c :: rest, acc =>
      if c = ',' then acc.reverse :: splitCommaAux rest []
      else splitCommaAux rest (c :: acc)

/-- Python `s.split(",")`: the comma-separated pieces of `s`, in order; a
string with n commas yields n+1 pieces, empty pieces included. -/
def splitComma (s : String) : List String :=
  (splitCommaAux s.data []).map (fun l => ⟨l⟩)

/-- Altitude normalization (config.py lines 89-90): a truthy altitude string
is split on commas into a list; `None` and the empty string are left alone. -/
def fiddle_altitude : Option ConfigVal → Option ConfigVal
  | some (ConfigVal.str s) =>
      if s == "" then some (ConfigVal.str s) else some (ConfigVal.list (splitComma s))
  | x => x

/-- Count of skin options that are not `None` (config.py lines 48-50). -/
def skin_option_count (o : Options) : Nat :=
  (if o.list_skins.isSome then 1 else 0) + (if o.enable_skin.isSome then 1 else 0) +
    (if o.disable_skin.isSome then 1 else 0)

/-- Count of install/upgrade/reconfigure options that are not `None`
(config.py lines 64-66). -/
def iur_count (o : Options) : Nat :=
  (if o.install.isSome then 1 else 0) + (if o.upgrade.isSome then 1 else 0) +
    (if o.reconfigure.isSome then 1 else 0)

/-- The save phase (config.py lines 181-188): pick the output path, delegate
`weecfg.save`, and log the backup path if one was produced. -/
def savePhase {C : Type} (collab : Collab C) (o : Options) (cfg : C)
    (config_path : Option String) (evs : List Event) : RunResult :=
  let output_path := if truthyS o.output then o.output.getD "" else config_path.getD ""
  let mkBackup := !o.no_backup
  match collab.save cfg output_path mkBackup with
  | some bp =>
      ⟨evs ++ [Event.save output_path mkBackup, Event.logMsg ("Saved backup to " ++ bp)],
       Outcome.finished⟩
  | none => ⟨evs ++ [Event.save output_path mkBackup], Outcome.finished⟩

/-- The dispatch chain (config.py lines 118-179) followed by the save phase.
`cfg` is the working config structure, `config_path` the path recorded by
`read_config` (absent for install), `dist` the parsed distribution config
(present exactly when install or upgrade was truthy). -/
def dispatch {C : Type} (collab : Collab C) (oracle : PromptOracle) (o : Options)
    (cfg : C) (config_path : Option String) (dist : Option C) (evs : List Event) :
    RunResult :=
  if truthyB o.upgrade then
    match dist with
    | some d =>
        savePhase collab o (collab.update_and_merge cfg d) config_path
          (evs ++ [Event.updateAndMerge])
    | none =>
        -- unreachable from run: models the unbound-name crash Python would hit
        ⟨evs, Outcome.exited 1 (some "NameError: dist_config_dict")⟩
  else if truthyB o.install || truthyB o.reconfigure then
    let si := get_stn_info (collab.get_station_info cfg) o oracle
    savePhase collab o (collab.modify_config cfg si) config_path
      (evs ++ [Event.modifyConfig si])
  else if truthyB o.list_skins then
    ⟨evs ++ [Event.printSkins], Outcome.exited 0 none⟩
  else if truthyS o.enable_skin then
    let name := o.enable_skin.getD ""
    let evs2 := evs ++ [Event.printMsg ("enable skin " ++ name), Event.queryEnableStatus name]
    match collab.get_enable_status cfg name with
    | SkinStatus.invalid_skin_name =>
        ⟨evs2 ++ [Event.printMsg ("invalid skin name " ++ name ++ " - run --list-skins for a list")],
         Outcome.exited 1 none⟩
    | SkinStatus.enabled =>
        ⟨evs2 ++ [Event.printMsg ("skin " ++ name ++ " is already enabled")],
         Outcome.exited 0 none⟩
    | SkinStatus.disabled =>
        ⟨evs2 ++ [Event.printMsg ("skin " ++ name ++ " is disabled - enabling")],
         Outcome.exited 0 none⟩
    | SkinStatus.undefined =>
        ⟨evs2 ++ [Event.printMsg ("skin " ++ name ++ " enable status is undefined - enabling")],
         Outcome.exited 0 none⟩
    | SkinStatus.other =>
        ⟨evs2 ++ [Event.printMsg ("enable_skin unknown error for skin " ++ name)],
         Outcome.exited 0 none⟩
  else if truthyS o.disable_skin then
    let name := o.disable_skin.getD ""
    let evs2 := evs ++ [Event.printMsg ("disable skin " ++ name), Event.queryEnableStatus name]
    match collab.get_enable_status cfg name with
    | SkinStatus.invalid_skin_name =>
        ⟨evs2 ++ [Event.printMsg ("invalid skin name " ++ name ++ " - run --list-skins for a list")],
         Outcome.exited 1 none⟩
    | SkinStatus.enabled =>
        ⟨evs2 ++ [Event.printMsg ("skin " ++ name ++ " is enabled - disabling")],
         Outcome.exited 0 none⟩
    | SkinStatus.disabled =>
        ⟨evs2 ++ [Event.printMsg ("skin " ++ name ++ " is already disabled")],
         Outcome.exited 0 none⟩
    | SkinStatus.undefined =>
        -- the source reports "enabling" here (copy-paste asymmetry, line 166)
        ⟨evs2 ++ [Event.printMsg ("skin " ++ name ++ " enable status is undefined - enabling")],
         Outcome.exited 0 none⟩
    | SkinStatus.other =>
        -- the source interpolates options.enable_skin here (line 168)
        ⟨evs2 ++ [Event.printMsg ("disable_skin unknown error for skin " ++ pyShow o.enable_skin)],
         Outcome.exited 0 none⟩
  else if truthyS o.disable_skin then
    -- second disable_skin branch (config.py lines 171-176): dead code
    ⟨evs ++ [Event.printMsg ("disable skin " ++ o.disable_skin.getD ""), Event.deadDisableBranch],
     Outcome.exited 0 none⟩
  else ⟨evs, Outcome.exited 1 (some "Internal logic error in config.py")⟩

/-- The load phase (config.py lines 92-116): parse the distribution config if
install or upgrade is requested, then either adopt it (install) or read the
existing config file; then dispatch. -/
def loadAndDispatch {C : Type} (collab : Collab C) (oracle : PromptOracle)
    (args : List String) (o : Options) : RunResult :=
  if truthyB o.install || truthyB o.upgrade then
    match collab.open_dist o.dist_config with
    | Except.error (LoadErr.io e) =>
        ⟨[Event.loadDist],
         Outcome.exited 1 (some ("Unable to open distribution configuration file: " ++ e))⟩
    | Except.error (LoadErr.syn e) =>
        ⟨[Event.loadDist],
         Outcome.exited 1 (some ("Syntax error in distribution configuration file: " ++ e))⟩
    | Except.ok dist =>
        if truthyB o.install then
          dispatch collab oracle o dist none (some dist) [Event.loadDist]
        else
          match collab.read_config o.config_path args with
          | Except.error (LoadErr.syn e) =>
              ⟨[Event.loadDist, Event.loadConfig],
               Outcome.exited 1 (some ("Syntax error in configuration file: " ++ e))⟩
          | Except.error (LoadErr.io e) =>
              ⟨[Event.loadDist, Event.loadConfig],
               Outcome.exited 1 (some ("Unable to open configuration file: " ++ e))⟩
          | Except.ok pc =>
              dispatch collab oracle o pc.2 (some pc.1) (some dist)
                [Event.loadDist, Event.loadConfig,
                 Event.logMsg ("Using configuration file " ++ pc.1)]
  else
    match collab.read_config o.config_path args with
    | Except.error (LoadErr.syn e) =>
        ⟨[Event.loadConfig],
         Outcome.exited 1 (some ("Syntax error in configuration file: " ++ e))⟩
    | Except.error (LoadErr.io e) =>
        ⟨[Event.loadConfig],
         Outcome.exited 1 (some ("Unable to open configuration file: " ++ e))⟩
    | Except.ok pc =>
        dispatch collab oracle o pc.2 (some pc.1) none
          [Event.loadConfig, Event.logMsg ("Using configuration file " ++ pc.1)]

/-- The companion-flag checks (config.py lines 69-82), the altitude
normalization (lines 88-90), then the load and dispatch phases. -/
def checksAndDispatch {C : Type} (collab : Collab C) (oracle : PromptOracle)
    (args : List String) (o : Options) : RunResult :=
  if (truthyB o.install || truthyB o.upgrade) && !truthyS o.dist_config then
    ⟨[], Outcome.exited 1
      (some "The commands --install and --upgrade require option --dist-config.")⟩
  else if truthyB o.upgrade && !(truthyS o.config_path || !args.isEmpty) then
    ⟨[], Outcome.exited 1
      (some "The command --upgrade requires an existing configuration file.")⟩
  else if truthyB o.install && !truthyS o.output then
    ⟨[], Outcome.exited 1 (some "The --install command requires option --output.")⟩
  else if truthyB o.install && (truthyS o.config_path || !args.isEmpty) then
    ⟨[], Outcome.exited 1
      (some "A configuration file cannot be used with the --install command.")⟩
  else
    loadAndDispatch collab oracle args { o with altitude := fiddle_altitude o.altitude }

/-- Embedding of `ConfigEngine.run` (config.py lines 38-188). -/
def run {C : Type} (collab : Collab C) (oracle : PromptOracle)
    (args : List String) (o : Options) : RunResult :=
  if o.version then ⟨[Event.printVersion], Outcome.exited 0 none⟩
  else if o.list_drivers then ⟨[Event.printDrivers], Outcome.exited 0 none⟩
  else if skin_option_count o > 1 then
    ⟨[], Outcome.exited 1
      (some "Must specify one and only one of --list-skins, --enable-skin, or --disable-skin.")⟩
  else if skin_option_count o == 1 then
    checksAndDispatch collab oracle args o
  else if !(iur_count o == 1) then
    ⟨[], Outcome.exited 1
      (some "Must specify one and only one of --install, --upgrade, or --reconfigure.")⟩
  else
    checksAndDispatch collab oracle args o

/-- A baseline options value: every flag off, every option `None`, except
`no_prompt`, which is on (the non-interactive setting used by the tests). -/
def optsBase : Options :=
  ⟨false, false, none, none, none, none, none, none, none, none, none,
   false, true, false, none, none, none, none, none, none, none, none⟩

/-- A trivial collaborator over the unit config structure: every load
succeeds, the config has no station section, skins report `disabled`. -/
def collabU : Collab Unit :=
  ⟨fun _ => Except.ok (), fun _ _ => Except.ok ("weewx.conf", ()),
   fun _ => [], fun _ _ => (), fun _ _ => (), fun _ _ => SkinStatus.disabled,
   fun _ _ _ => none⟩

/-- Like `collabU` but every skin name reports `invalid_skin_name`. -/
def collabInvalid : Collab Unit :=
  ⟨fun _ => Except.ok (), fun _ _ => Except.ok ("weewx.conf", ()),
   fun _ => [], fun _ _ => (), fun _ _ => (), fun _ _ => SkinStatus.invalid_skin_name,
   fun _ _ _ => none⟩

/-- A prompt oracle whose answers change nothing. -/
def oracleU : PromptOracle :=
  ⟨fun _ => [], fun _ => "weewx.drivers.simulator", fun _ _ => []⟩

/-- A prompt oracle that overrides the location and the driver. -/
def oracleV : PromptOracle :=
  ⟨fun _ => [("location", ConfigVal.str "Prompted Town")], fun _ => "weewx.drivers.vantage",
   fun _ _ => [("port", ConfigVal.str "/dev/ttyUSB0")]⟩

/-- Options for a reconfigure invocation carrying an altitude string. -/
def optsC3 : Options :=
  { optsBase with reconfigure := some true, altitude := some (ConfigVal.str "5,meter") }

/-- Options for a plain enable-skin invocation. -/
def optsC4 : Options := { optsBase with enable_skin := some "Seasons" }

/-- Options with --version plus two of the mutually exclusive verbs. -/
def optsC7 : Options :=
  { optsBase with version := true, install := some true, upgrade := some true }

/-- Options with two of the mutually exclusive verbs and no early-exit flag. -/
def optsC7b : Options := { optsBase with install := some true, upgrade := some true }

/-- Options for an enable-skin invocation naming a nonexistent skin. -/
def optsC8 : Options := { optsBase with enable_skin := some "Nonexistent" }

/-- Options combining a well-formed install request with a skin flag. -/
def optsC9 : Options :=
  { optsBase with
    install := some true
    list_skins := some true
    dist_config := some "dist.conf"
    output := some "weewx.conf" }

/-! Lemmas about the dictionary model and the override/default merge loop. -/

theorem dictGet_dictSet_self (d : StationInfo) (k : String) (v : ConfigVal) :
    dictGet (dictSet d k v) k = some v := by
  simp [dictGet, dictSet]

theorem dictGet_dictSet_ne (d : StationInfo) (k k2 : String) (v : ConfigVal)
    (h : k2 ≠ k) : dictGet (dictSet d k2 v) k = dictGet d k := by
  simp [dictGet, dictSet, h]

theorem dictGet_dictSet_isSome (d : StationInfo) (k k2 : String) (v : ConfigVal)
    (h : (dictGet d k).isSome = true) :
    (dictGet (dictSet d k2 v) k).isSome = true := by
  by_cases hk : k2 = k
  · subst hk; simp [dictGet_dictSet_self]
  · rw [dictGet_dictSet_ne _ _ _ _ hk]; exact h

theorem dictUpdate_isSome (l : List (String × ConfigVal)) (d : StationInfo) (k : String)
    (h : (dictGet d k).isSome = true) :
    (dictGet (dictUpdate d l) k).isSome = true := by
  induction l generalizing d with
  | nil => exact h
  | cons p rest ih =>
      simp only [dictUpdate, List.foldl_cons] at *
      exact ih _ (dictGet_dictSet_isSome _ _ _ _ h)

theorem mergeStep_other (o : Options) (si : StationInfo) (kv : String × ConfigVal)
    (k : String) (h : kv.1 ≠ k) :
    dictGet (mergeStep o si kv) k = dictGet si k := by
  rcases hA : o.getStnAttr kv.1 with _ | v <;> simp only [mergeStep, hA]
  · split
    · rfl
    · exact dictGet_dictSet_ne _ _ _ _ h
  · exact dictGet_dictSet_ne _ _ _ _ h

theorem mergeStep_isSome (o : Options) (si : StationInfo) (kv : String × ConfigVal)
    (k : String) (h : (dictGet si k).isSome = true) :
    (dictGet (mergeStep o si kv) k).isSome = true := by
  rcases hA : o.getStnAttr kv.1 with _ | v <;> simp only [mergeStep, hA]
  · split
    · exact h
    · exact dictGet_dictSet_isSome _ _ _ _ h
  · exact dictGet_dictSet_isSome _ _ _ _ h

theorem foldl_mergeStep_not_mem (o : Options) (l : List (String × ConfigVal))
    (si : StationInfo) (k : String) (h : k ∉ l.map Prod.fst) :
    dictGet (l.foldl (mergeStep o) si) k = dictGet si k := by
  induction l generalizing si with
  | nil => rfl
  | cons p rest ih =>
      simp only [List.map_cons, List.mem_cons, not_or] at h
      simp only [List.foldl_cons]
      rw [ih _ h.2, mergeStep_other _ _ _ _ (fun hk => h.1 hk.symm)]

theorem foldl_mergeStep_isSome (o : Options) (l : List (String × ConfigVal))
    (si : StationInfo) (k : String) (h : (dictGet si k).isSome = true) :
    (dictGet (l.foldl (mergeStep o) si) k).isSome = true := by
  induction l generalizing si with
  | nil => exact h
  | cons p rest ih =>
      simp only [List.foldl_cons]
      exact ih _ (mergeStep_isSome _ _ _ _ h)

theorem foldl_mergeStep_mem_isSome (o : Options) (l : List (String × ConfigVal))
    (si : StationInfo) (k : String) (h : k ∈ l.map Prod.fst) :
    (dictGet (l.foldl (mergeStep o) si) k).isSome = true := by
  induction l generalizing si with
  | nil => simp at h
  | cons p rest ih =>
      obtain ⟨k1, dv1⟩ := p
      simp only [List.foldl_cons]
      by_cases hk : k ∈ rest.map Prod.fst
      · exact ih _ hk
      · have hp : k1 = k := by
          simp only [List.map_cons, List.mem_cons] at h
          rcases h with h | h
          · exact h.symm
          · exact absurd h hk
        subst hp
        apply foldl_mergeStep_isSome
        rcases hA : o.getStnAttr (k1, dv1).1 with _ | v <;> simp only [mergeStep, hA]
        · cases hS : (dictGet si (k1, dv1).1).isSome with
          | true => simp [hS]
          | false => simp [hS, dictGet_dictSet_self]
        · simp [dictGet_dictSet_self]

theorem foldl_mergeStep_cli (o : Options) (l : List (String × ConfigVal))
    (si : StationInfo) (k : String) (v : ConfigVal)
    (hnd : (l.map Prod.fst).Nodup) (hmem : k ∈ l.map Prod.fst)
    (hcli : o.getStnAttr k = some v) :
    dictGet (l.foldl (mergeStep o) si) k = some v := by
  induction l generalizing si with
  | nil => simp at hmem
  | cons p rest ih =>
      obtain ⟨k1, dv1⟩ := p
      simp only [List.map_cons, List.nodup_cons] at hnd
      simp only [List.foldl_cons]
      by_cases hk : k1 = k
      · subst hk
        rw [foldl_mergeStep_not_mem _ _ _ _ hnd.1]
        unfold mergeStep
        simp only [hcli]
        exact dictGet_dictSet_self _ _ _
      · have hmem2 : k ∈ rest.map Prod.fst := by
          simp only [List.map_cons, List.mem_cons] at hmem
          rcases hmem with h | h
          · exact absurd h.symm hk
          · exact h
        exact ih _ hnd.2 hmem2

theorem foldl_mergeStep_default (o : Options) (l : List (String × ConfigVal))
    (si : StationInfo) (k : String) (dv : ConfigVal)
    (hnd : (l.map Prod.fst).Nodup) (hmem : (k, dv) ∈ l)
    (hcli : o.getStnAttr k = none) (hcfg : dictGet si k = none) :
    dictGet (l.foldl (mergeStep o) si) k = some dv := by
  induction l generalizing si with
  | nil => simp at hmem
  | cons p rest ih =>
      obtain ⟨k1, dv1⟩ := p
      simp only [List.map_cons, List.nodup_cons] at hnd
      simp only [List.foldl_cons]
      by_cases hk : k1 = k
      · subst hk
        have hpd : dv1 = dv := by
          rcases List.mem_cons.mp hmem with h | h
          · injection h with h1 h2
            exact h2.symm
          · exact absurd (List.mem_map_of_mem Prod.fst h) hnd.1
        subst hpd
        rw [foldl_mergeStep_not_mem _ _ _ _ hnd.1]
        simp [mergeStep, hcli, hcfg, dictGet_dictSet_self]
      · have hmem2 : (k, dv) ∈ rest := by
          rcases List.mem_cons.mp hmem with h | h
          · exact absurd (congrArg Prod.fst h) (fun hh => hk hh.symm)
          · exact h
        have hcfg2 : dictGet (mergeStep o si (k1, dv1)) k = none := by
          rw [mergeStep_other _ _ _ _ hk]
          exact hcfg
        exact ih _ hnd.2 hmem2 hcfg2

theorem get_stn_info_no_prompt (cfg : StationInfo) (o : Options) (oracle : PromptOracle)
    (h : o.no_prompt = true) :
    get_stn_info cfg o oracle = stn_info_defaults.foldl (mergeStep o) cfg := by
  simp [get_stn_info, h]

theorem stn_info_defaults_nodup : (stn_info_defaults.map Prod.fst).Nodup := by
  decide

/-- C1 counterexample: the claim omits the interactive phase.  With prompting
active (`no_prompt` unset) and an oracle that answers "Prompted Town", the
resolved location is the prompt answer, not the CLI override "CLI Town"
supplied on the command line. -/
theorem cli_override_prompt_counterexample :
    dictGet (get_stn_info []
        { optsBase with location := some "CLI Town", no_prompt := false } oracleV)
        "location" = some (ConfigVal.str "Prompted Town") ∧
    dictGet (get_stn_info []
        { optsBase with location := some "CLI Town", no_prompt := false } oracleV)
        "location" ≠ some (ConfigVal.str "CLI Town") := by
  decide

/-- C1 (amended): when the no-prompt flag is set, so that the interactive
phase — which outranks every other source — is skipped, any present and
non-null CLI option for a default-table key determines the resolved value of
that key, regardless of the config structure and the default table. -/
theorem cli_override_wins (cfg : StationInfo) (o : Options) (oracle : PromptOracle)
    (k : String) (v : ConfigVal) (hnp : o.no_prompt = true)
    (hk : k ∈ stn_info_defaults.map Prod.fst) (hcli : o.getStnAttr k = some v) :
    dictGet (get_stn_info cfg o oracle) k = some v := by
  rw [get_stn_info_no_prompt _ _ _ hnp]
  exact foldl_mergeStep_cli _ _ _ _ _ stn_info_defaults_nodup hk hcli

/-- C1 witness: a CLI location override beats a conflicting config value. -/
theorem cli_override_wins_witness :
    dictGet (get_stn_info [("location", ConfigVal.str "Config Town")]
        { optsBase with location := some "CLI Town" } oracleU) "location"
      = some (ConfigVal.str "CLI Town") :=
  cli_override_wins _ _ _ _ _ rfl (by decide) (by decide)

/-- C2 counterexample: with nothing in the config and no CLI overrides, the
resolved altitude is the default-table string "0, meter", not the two-element
sequence ["0", "meter"] the claim states. -/
theorem default_altitude_counterexample :
    dictGet (get_stn_info [] optsBase oracleU) "altitude"
        = some (ConfigVal.str "0, meter") ∧
    dictGet (get_stn_info [] optsBase oracleU) "altitude"
        ≠ some (ConfigVal.list ["0", "meter"]) := by
  decide

/-- C2 (amended): when the no-prompt flag is set, every default-table key that
is absent from both the config structure and the CLI overrides resolves to the
default-table value exactly as the code spells it; for altitude that value is
the single string "0, meter" (comma-splitting applies only to a CLI-supplied
altitude), not the sequence ["0", "meter"]. -/
theorem default_fill_law (cfg : StationInfo) (o : Options) (oracle : PromptOracle)
    (k : String) (dv : ConfigVal) (hnp : o.no_prompt = true)
    (hmem : (k, dv) ∈ stn_info_defaults) (hcli : o.getStnAttr k = none)
    (hcfg : dictGet cfg k = none) :
    dictGet (get_stn_info cfg o oracle) k = some dv := by
  rw [get_stn_info_no_prompt _ _ _ hnp]
  exact foldl_mergeStep_default _ _ _ _ _ stn_info_defaults_nodup hmem hcli hcfg

/-- C2 witness: the altitude default fills in as the string "0, meter". -/
theorem default_fill_law_witness :
    dictGet (get_stn_info [] optsBase oracleU) "altitude"
      = some (ConfigVal.str "0, meter") :=
  default_fill_law _ _ _ _ _ rfl (by decide) (by decide) rfl

/-- C5: with the no-prompt flag set, `get_stn_info` is a pure function of the
config structure and the CLI options: the prompt oracle — the only other
input — has no influence on the result, so two resolutions from equal inputs
are identical. -/
theorem get_stn_info_deterministic (cfg : StationInfo) (o : Options)
    (oracle1 oracle2 : PromptOracle) (hnp : o.no_prompt = true) :
    get_stn_info cfg o oracle1 = get_stn_info cfg o oracle2 := by
  rw [get_stn_info_no_prompt _ _ _ hnp, get_stn_info_no_prompt _ _ _ hnp]

/-- C5 witness: two oracles with different answers, identical result. -/
theorem get_stn_info_deterministic_witness :
    get_stn_info [] optsBase oracleU = get_stn_info [] optsBase oracleV :=
  get_stn_info_deterministic _ _ _ _ rfl

/-- C6: for every config structure and every options value, the resolved
station info assigns a value to every key of the default table. -/
theorem stn_info_total (cfg : StationInfo) (o : Options) (oracle : PromptOracle)
    (k : String) (hk : k ∈ stn_info_defaults.map Prod.fst) :
    (dictGet (get_stn_info cfg o oracle) k).isSome = true := by
  have hbase : (dictGet (stn_info_defaults.foldl (mergeStep o) cfg) k).isSome = true :=
    foldl_mergeStep_mem_isSome _ _ _ _ hk
  unfold get_stn_info
  cases hnp : o.no_prompt with
  | true => simpa [hnp] using hbase
  | false =>
      simp only [hnp, Bool.false_eq_true, if_false]
      exact dictUpdate_isSome _ _ _
        (dictGet_dictSet_isSome _ _ _ _ (dictUpdate_isSome _ _ _ hbase))

/-- C6 witness: the driver key is always set, here with prompting active. -/
theorem stn_info_total_witness :
    (dictGet (get_stn_info [] { optsBase with no_prompt := false } oracleV)
        "driver").isSome = true :=
  stn_info_total _ _ _ _ (by decide)

/-! Lemmas about the save phase and the reachability of dispatch branches. -/

theorem savePhase_outcome {C : Type} (collab : Collab C) (o : Options) (cfg : C)
    (cp : Option String) (evs : List Event) :
    (savePhase collab o cfg cp evs).outcome = Outcome.finished := by
  simp only [savePhase]
  repeat' split
  all_goals rfl

theorem savePhase_mem_of_mem {C : Type} (collab : Collab C) (o : Options) (cfg : C)
    (cp : Option String) (evs : List Event) (e : Event) (h : e ∈ evs) :
    e ∈ (savePhase collab o cfg cp evs).events := by
  simp only [savePhase]
  repeat' split
  all_goals simp [h]

theorem savePhase_mem_save_out {C : Type} (collab : Collab C) (o : Options) (cfg : C)
    (cp : Option String) (evs : List Event) (p : String)
    (hp : (if truthyS o.output then o.output.getD "" else cp.getD "") = p) :
    Event.save p (!o.no_backup) ∈ (savePhase collab o cfg cp evs).events := by
  subst hp
  simp only [savePhase]
  repeat' split
  all_goals simp_all

theorem savePhase_no_query {C : Type} (collab : Collab C) (o : Options) (cfg : C)
    (cp : Option String) (evs : List Event) (s : String)
    (h : Event.queryEnableStatus s ∉ evs) :
    Event.queryEnableStatus s ∉ (savePhase collab o cfg cp evs).events := by
  simp only [savePhase]
  repeat' split
  all_goals simp_all

theorem savePhase_no_printSkins {C : Type} (collab : Collab C) (o : Options) (cfg : C)
    (cp : Option String) (evs : List Event)
    (h : Event.printSkins ∉ evs) :
    Event.printSkins ∉ (savePhase collab o cfg cp evs).events := by
  simp only [savePhase]
  repeat' split
  all_goals simp_all

theorem savePhase_no_dead {C : Type} (collab : Collab C) (o : Options) (cfg : C)
    (cp : Option String) (evs : List Event)
    (h : Event.deadDisableBranch ∉ evs) :
    Event.deadDisableBranch ∉ (savePhase collab o cfg cp evs).events := by
  simp only [savePhase]
  repeat' split
  all_goals simp_all

theorem dispatch_no_dead {C : Type} (collab : Collab C) (oracle : PromptOracle)
    (o : Options) (cfg : C) (cp : Option String) (dist : Option C)
    (evs : List Event) (h : Event.deadDisableBranch ∉ evs) :
    Event.deadDisableBranch ∉ (dispatch collab oracle o cfg cp dist evs).events := by
  simp only [dispatch]
  repeat' split
  all_goals first
    | (apply savePhase_no_dead; simp_all)
    | simp_all

theorem loadAndDispatch_no_dead {C : Type} (collab : Collab C) (oracle : PromptOracle)
    (args : List String) (o : Options) :
    Event.deadDisableBranch ∉ (loadAndDispatch collab oracle args o).events := by
  simp only [loadAndDispatch]
  repeat' split
  all_goals first
    | (apply dispatch_no_dead; simp_all)
    | simp_all

theorem checksAndDispatch_no_dead {C : Type} (collab : Collab C) (oracle : PromptOracle)
    (args : List String) (o : Options) :
    Event.deadDisableBranch ∉ (checksAndDispatch collab oracle args o).events := by
  simp only [checksAndDispatch]
  repeat' split
  all_goals first
    | (apply loadAndDispatch_no_dead)
    | simp_all

/-- C10: the second disable_skin dispatch branch (config.py lines 171-176) is
unreachable: no invocation of `run` ever produces its marker event, because
the textually earlier branch with the identical guard (lines 154-169) handles
every disable_skin request and terminates the process. -/
theorem second_disable_branch_unreachable {C : Type} (collab : Collab C)
    (oracle : PromptOracle) (args : List String) (o : Options) :
    Event.deadDisableBranch ∉ (run collab oracle args o).events := by
  simp only [run]
  repeat' split
  all_goals first
    | (apply checksAndDispatch_no_dead)
    | simp_all

/-- C4 (code-bug evidence): an enable-skin invocation whose skin reports
Disabled prints "disabled - enabling" and exits 0, but the trace shows no
enable-mutation delegate call at all — the source holds only a placeholder
comment (config.py line 147) where the claim expects exactly one delegate
invocation. -/
theorem enable_disabled_prints_without_mutation :
    (run collabU oracleU [] optsC4).events
      = [Event.loadConfig, Event.logMsg "Using configuration file weewx.conf",
         Event.printMsg "enable skin Seasons", Event.queryEnableStatus "Seasons",
         Event.printMsg "skin Seasons is disabled - enabling"] ∧
    (run collabU oracleU [] optsC4).outcome = Outcome.exited 0 none ∧
    ∀ s, Event.enableSkinMutation s ∉ (run collabU oracleU [] optsC4).events := by
  refine ⟨by decide, by decide, ?_⟩
  intro s
  have hev : (run collabU oracleU [] optsC4).events
      = [Event.loadConfig, Event.logMsg "Using configuration file weewx.conf",
         Event.printMsg "enable skin Seasons", Event.queryEnableStatus "Seasons",
         Event.printMsg "skin Seasons is disabled - enabling"] := by decide
  rw [hev]
  simp

/-- C7 counterexample: an options value with no skin flag and two of the
mutually exclusive verbs present, but with --version also set, exits with
code 0 after printing the version: no usage error, no non-zero exit. -/
theorem usage_error_version_counterexample :
    skin_option_count optsC7 = 0 ∧ iur_count optsC7 = 2 ∧
    run collabU oracleU [] optsC7 = ⟨[Event.printVersion], Outcome.exited 0 none⟩ := by
  decide

/-- C7 (amended): provided neither the version nor the driver-list early exit
is requested, every invocation with no skin flag set and more than one of
install/upgrade/reconfigure present terminates immediately with the usage
message and exit code 1, with an empty event trace — no file is loaded or
written. -/
theorem multiple_verbs_usage_error {C : Type} (collab : Collab C)
    (oracle : PromptOracle) (args : List String) (o : Options)
    (hv : o.version = false) (hd : o.list_drivers = false)
    (hls : o.list_skins = none) (hes : o.enable_skin = none)
    (hds : o.disable_skin = none) (hiur : 2 ≤ iur_count o) :
    run collab oracle args o =
      ⟨[], Outcome.exited 1
        (some "Must specify one and only one of --install, --upgrade, or --reconfigure.")⟩ := by
  have hsc : skin_option_count o = 0 := by
    simp [skin_option_count, hls, hes, hds]
  have h3 : ¬ iur_count o = 1 := by omega
  simp [run, hv, hd, hsc, h3]

/-- C7 witness: --install plus --upgrade with no early-exit flag fails with
the usage message. -/
theorem multiple_verbs_usage_error_witness :
    run collabU oracleU [] optsC7b =
      ⟨[], Outcome.exited 1
        (some "Must specify one and only one of --install, --upgrade, or --reconfigure.")⟩ :=
  multiple_verbs_usage_error collabU oracleU [] optsC7b rfl rfl rfl rfl rfl (by decide)

/-- C3 counterexample: the altitude string "100" is non-empty, yet after
normalization the altitude option is the one-element list ["100"], not a
two-element [value, unit] sequence. -/
theorem altitude_split_counterexample :
    fiddle_altitude (some (ConfigVal.str "100")) = some (ConfigVal.list ["100"]) ∧
    ¬ ∃ a b, fiddle_altitude (some (ConfigVal.str "100"))
        = some (ConfigVal.list [a, b]) := by
  constructor
  · decide
  · rintro ⟨a, b, hab⟩
    rw [show fiddle_altitude (some (ConfigVal.str "100"))
        = some (ConfigVal.list ["100"]) from by decide] at hab
    simp at hab

/-- C3 (amended): for a reconfigure invocation whose altitude option is a
non-empty string s, the validation phase replaces the option with the list of
the comma-separated components of s — a two-element [value, unit] sequence
exactly when s holds one comma — and (under no-prompt) that list is the
altitude the resolver hands to modify_config. -/
theorem altitude_normalization {C : Type} (collab : Collab C) (oracle : PromptOracle)
    (args : List String) (o : Options) (s path : String) (cfg : C)
    (hv : o.version = false) (hd : o.list_drivers = false)
    (hls : o.list_skins = none) (hes : o.enable_skin = none)
    (hds : o.disable_skin = none)
    (hi : o.install = none) (hu : o.upgrade = none) (hr : o.reconfigure = some true)
    (halt : o.altitude = some (ConfigVal.str s)) (hs : s ≠ "")
    (hnp : o.no_prompt = true)
    (hread : collab.read_config o.config_path args = Except.ok (path, cfg)) :
    ∃ si, Event.modifyConfig si ∈ (run collab oracle args o).events ∧
      dictGet si "altitude" = some (ConfigVal.list (splitComma s)) := by
  have hsc : skin_option_count o = 0 := by
    simp [skin_option_count, hls, hes, hds]
  have hiur : iur_count o = 1 := by
    simp [iur_count, hi, hu, hr]
  have hrun : run collab oracle args o =
      savePhase collab { o with altitude := fiddle_altitude o.altitude }
        (collab.modify_config cfg (get_stn_info (collab.get_station_info cfg)
            { o with altitude := fiddle_altitude o.altitude } oracle))
        (some path)
        [Event.loadConfig, Event.logMsg ("Using configuration file " ++ path),
         Event.modifyConfig (get_stn_info (collab.get_station_info cfg)
            { o with altitude := fiddle_altitude o.altitude } oracle)] := by
    simp [run, hv, hd, hsc, hiur, checksAndDispatch, loadAndDispatch, dispatch,
          truthyB, truthyS, hi, hu, hr, hread]
  refine ⟨get_stn_info (collab.get_station_info cfg)
      { o with altitude := fiddle_altitude o.altitude } oracle, ?_, ?_⟩
  · rw [hrun]
    exact savePhase_mem_of_mem _ _ _ _ _ _ (by simp)
  · rw [get_stn_info_no_prompt _ { o with altitude := fiddle_altitude o.altitude } _ hnp]
    apply foldl_mergeStep_cli _ _ _ _ _ stn_info_defaults_nodup (by decide)
    simp [Options.getStnAttr, halt, fiddle_altitude, hs]

/-- C3 witness: the altitude string "5,meter" resolves to ["5", "meter"]. -/
theorem altitude_normalization_witness :
    ∃ si, Event.modifyConfig si ∈ (run collabU oracleU [] optsC3).events ∧
      dictGet si "altitude" = some (ConfigVal.list ["5", "meter"]) := by
  have h := altitude_normalization collabU oracleU [] optsC3 "5,meter" "weewx.conf" ()
    rfl rfl rfl rfl rfl rfl rfl rfl rfl (by decide) rfl rfl
  have he : splitComma "5,meter" = ["5", "meter"] := by decide
  rw [he] at h
  exact h

/-- C8: for a pure enable-skin or disable-skin invocation (no other verb, no
early-exit flag) whose config file loads, an invalid skin name prints the
invalid-skin message and exits with code 1 producing no file write, and every
other skin status exits with code 0 without ever reaching the generic
save/backup phase. -/
theorem skin_toggle_exit_behavior {C : Type} (collab : Collab C)
    (oracle : PromptOracle) (args : List String) (o : Options) (name : String)
    (path : String) (cfg : C)
    (hv : o.version = false) (hd : o.list_drivers = false)
    (hi : o.install = none) (hu : o.upgrade = none) (hr : o.reconfigure = none)
    (hls : o.list_skins = none)
    (hskin : (o.enable_skin = some name ∧ o.disable_skin = none) ∨
             (o.enable_skin = none ∧ o.disable_skin = some name))
    (hname : name ≠ "")
    (hread : collab.read_config o.config_path args = Except.ok (path, cfg)) :
    (collab.get_enable_status cfg name = SkinStatus.invalid_skin_name →
       (run collab oracle args o).outcome = Outcome.exited 1 none ∧
       Event.printMsg ("invalid skin name " ++ name ++ " - run --list-skins for a list")
           ∈ (run collab oracle args o).events ∧
       ∀ p b, Event.save p b ∉ (run collab oracle args o).events) ∧
    (collab.get_enable_status cfg name ≠ SkinStatus.invalid_skin_name →
       (run collab oracle args o).outcome = Outcome.exited 0 none ∧
       ∀ p b, Event.save p b ∉ (run collab oracle args o).events) := by
  rcases hskin with ⟨h1, h2⟩ | ⟨h1, h2⟩ <;>
    rcases hstat : collab.get_enable_status cfg name <;>
    · have hsc : skin_option_count o = 1 := by
        simp [skin_option_count, hls, h1, h2]
      simp [run, hv, hd, hsc, checksAndDispatch, loadAndDispatch, dispatch,
            truthyB, truthyS, hi, hu, hr, hls, h1, h2, hname, hread, hstat, pyShow]

/-- C8 witness: enabling a nonexistent skin exits 1 and writes nothing. -/
theorem skin_toggle_exit_behavior_witness :
    (run collabInvalid oracleU [] optsC8).outcome = Outcome.exited 1 none ∧
    ∀ p b, Event.save p b ∉ (run collabInvalid oracleU [] optsC8).events := by
  have h := (skin_toggle_exit_behavior collabInvalid oracleU [] optsC8 "Nonexistent"
      "weewx.conf" () rfl rfl rfl rfl rfl rfl (Or.inl ⟨rfl, rfl⟩) (by decide) rfl).1 rfl
  exact ⟨h.1, h.2.2⟩

/-- C9: when exactly one skin flag accompanies a well-formed install request
(dist-config and output given, no config path), validation passes, the
install path resolves station info and modifies and saves the config, and the
skin operation never runs — the skin flag is silently ignored. -/
theorem install_with_skin_flag_ignores_skin {C : Type} (collab : Collab C)
    (oracle : PromptOracle) (o : Options) (d out : String) (dist : C)
    (hv : o.version = false) (hd : o.list_drivers = false)
    (hsc : skin_option_count o = 1)
    (hi : o.install = some true) (hu : o.upgrade = none)
    (hdc : o.dist_config = some d) (hdne : d ≠ "")
    (hout : o.output = some out) (houtne : out ≠ "")
    (hcp : o.config_path = none)
    (hopen : collab.open_dist (some d) = Except.ok dist) :
    (run collab oracle [] o).outcome = Outcome.finished ∧
    (∃ si, Event.modifyConfig si ∈ (run collab oracle [] o).events) ∧
    Event.save out (!o.no_backup) ∈ (run collab oracle [] o).events ∧
    (∀ s, Event.queryEnableStatus s ∉ (run collab oracle [] o).events) ∧
    Event.printSkins ∉ (run collab oracle [] o).events := by
  have hrun : run collab oracle [] o =
      savePhase collab { o with altitude := fiddle_altitude o.altitude }
        (collab.modify_config dist (get_stn_info (collab.get_station_info dist)
            { o with altitude := fiddle_altitude o.altitude } oracle))
        none
        [Event.loadDist,
         Event.modifyConfig (get_stn_info (collab.get_station_info dist)
            { o with altitude := fiddle_altitude o.altitude } oracle)] := by
    simp [run, hv, hd, hsc, checksAndDispatch, loadAndDispatch, dispatch,
          truthyB, truthyS, hi, hu, hdc, hdne, hout, houtne, hcp, hopen]
  rw [hrun]
  refine ⟨savePhase_outcome _ _ _ _ _,
    ⟨get_stn_info (collab.get_station_info dist)
        { o with altitude := fiddle_altitude o.altitude } oracle,
      savePhase_mem_of_mem _ _ _ _ _ _ (by simp)⟩,
    savePhase_mem_save_out _ _ _ _ _ _ (by simp [truthyS, hout, houtne]),
    fun s => savePhase_no_query _ _ _ _ _ _ (by simp),
    savePhase_no_printSkins _ _ _ _ _ (by simp)⟩

/-- C9 witness: --list-skins alongside a full --install request installs and
saves, ignoring the skin flag. -/
theorem install_with_skin_flag_ignores_skin_witness :
    (run collabU oracleU [] optsC9).outcome = Outcome.finished ∧
    (∃ si, Event.modifyConfig si ∈ (run collabU oracleU [] optsC9).events) ∧
    Event.save "weewx.conf" (!optsC9.no_backup) ∈ (run collabU oracleU [] optsC9).events ∧
    (∀ s, Event.queryEnableStatus s ∉ (run collabU oracleU [] optsC9).events) ∧
    Event.printSkins ∉ (run collabU oracleU [] optsC9).events :=
  install_with_skin_flag_ignores_skin collabU oracleU optsC9 "dist.conf" "weewx.conf" ()
    rfl rfl (by decide) rfl rfl rfl (by decide) rfl (by decide) rfl rfl

end Weecfg
